import Mathlib

/-!
Verification of the CWV-from-GA4-exports deployment script (`deploy.py`).

The script is sequential API orchestration: it resolves configuration from
CLI flags and interactive prompts, enables cloud services, replaces a
scheduled BigQuery transfer config, grants IAM roles, and conditionally
deploys a stored procedure, a Cloud Run alerting service and an Eventarc
trigger.  We shallowly embed the script: every external API call becomes an
`Event` recorded in a trace, interactive prompts become fields of a
`Prompts` record, CLI flags become a `Flags` record mirroring the argparse
result, and `main` becomes the pure function `runMain` returning the trace
of attempted API calls together with the run's outcome.  The BigQuery
transfer-config state touched by `delete_scheduled_query` /
`deploy_scheduled_materialize_query` is modelled separately as `BQState`.
-/

namespace CwvDeploy

/-- Python truthiness of an optional string (`argparse` gives `None` for an
absent flag; `if not x:` is taken for `None` and for the empty string). -/
def optTruthy : Option String → Bool
  | none => false
  | some s => s ≠ ""

/-- Python truthiness of an optional int (`-g` is parsed with `type=int`;
`if not x:` is taken for `None` and for `0`). -/
def intOptTruthy : Option Int → Bool
  | none => false
  | some n => n ≠ 0

/-- Python `str.isdigit` (ASCII model): `''.isdigit()` is `False`, otherwise
every character must be a digit. -/
def pyIsdigit (s : String) : Bool :=
  s ≠ "" && s.data.all Char.isDigit

/-- A Python value held by the threshold arguments.  `argparse` stores the
flag text as `str` (no `type=` is given for `-l`/`-f`/`-c`), the defaults are
the `int` literals `2500`/`100`/`2055` and the `float` literal `0.1`; prompt
responses are `str`.  `floatV01` stands for the single float literal `0.1`
appearing in the script (it is never computed with, only tested for
truthiness and formatted). -/
inductive Val where
  | intV (n : Int)
  | floatV01
  | strV (s : String)
deriving DecidableEq, Repr

/-- Python truthiness of a `Val` (`0.1` is truthy). -/
def Val.truthy : Val → Bool
  | .intV n => n ≠ 0
  | .floatV01 => true
  | .strV s => s ≠ ""

/-- Python `str()` / f-string formatting of a `Val` (`str(0.1) == "0.1"`). -/
def Val.format : Val → String
  | .intV n => toString n
  | .floatV01 => "0.1"
  | .strV s => s

/-- `startsList needle hay` holds when `hay` begins with `needle`. -/
def startsList : List Char → List Char → Bool
  | [], _ => true
  | _ :: _, [] => false
  | n :: ns, h :: hs => n == h && startsList ns hs

/-- `findSub hay needle` models Python `hay.find(needle) != -1`: `needle`
occurs as a contiguous substring of `hay` (the empty needle always occurs). -/
def findSub : List Char → List Char → Bool
  | [], needle => startsList needle []
  | h :: t, needle => startsList needle (h :: t) || findSub t needle

/-- One entry of the IAM `serviceAccounts().list` response, as consumed by
`get_default_service_account_email`. -/
structure ServiceAccount where
  displayName : String
  email : String
deriving DecidableEq, Repr

/-- The lowercased character sequence of a string (Python `str.lower`,
ASCII model). -/
def lowerChars (s : String) : List Char :=
  s.data.map Char.toLower

/-- `get_default_service_account_email` (deploy.py:422-441): walk the listed
service accounts and return the email of the first whose lowercased display
name contains `'default'`; return `''` when none does. -/
def get_default_service_account_email : List ServiceAccount → String
  | [] => ""
  | a :: rest =>
    if findSub (lowerChars a.displayName) "default".data then a.email
    else get_default_service_account_email rest

/-! ## BigQuery transfer-config state (claim C1)

`delete_scheduled_query` lists the transfer configs of the target
project/location **filtered to `data_source_ids=['scheduled_query']`** and
deletes every listed config whose display name matches;
`deploy_scheduled_materialize_query` then creates one new transfer config
with `data_source_id='scheduled_query'` and the well-known display name.
The query text and schedule carried by the config are opaque to the claims
and are not modelled. -/

/-- A BigQuery data-transfer config, as far as the replacement protocol
observes it: its server-assigned resource `name`, its user-facing
`displayName`, and its `dataSourceId`. -/
structure TransferConfig where
  name : String
  displayName : String
  dataSourceId : String
deriving DecidableEq, Repr

/-- The transfer-config collection of one project/location, plus a counter
used to mint fresh server-assigned resource names. -/
structure BQState where
  configs : List TransferConfig
  nextId : Nat
deriving DecidableEq, Repr

/-- Does a config match what `delete_scheduled_query display_name` deletes:
it is listed (data source `scheduled_query`) and its display name matches. -/
def matchesScheduled (displayName : String) (c : TransferConfig) : Bool :=
  c.dataSourceId == "scheduled_query" && c.displayName == displayName

/-- `delete_scheduled_query` (deploy.py:90-109): list the transfer configs
with `data_source_ids=['scheduled_query']` and delete each listed config
whose display name equals `displayName`. -/
def delete_scheduled_query (displayName : String) (s : BQState) : BQState :=
  { s with configs := s.configs.filter (fun c => !(matchesScheduled displayName c)) }

/-- `deploy_scheduled_materialize_query` (deploy.py:112-272), state part:
delete every scheduled query named `Update Web Vitals Summary`, then create
one new transfer config with that display name and data source
`scheduled_query` (fresh server-assigned name). -/
def deploy_scheduled_materialize_query (s : BQState) : BQState :=
  let displayName := "Update Web Vitals Summary"
  let s1 := delete_scheduled_query displayName s
  { configs := s1.configs ++
      [{ name := "transferConfigs/" ++ toString s1.nextId,
         displayName := displayName,
         dataSourceId := "scheduled_query" }],
    nextId := s1.nextId + 1 }

/-- Number of live transfer configs carrying the well-known display name,
irrespective of data source (the quantity claim C1 speaks about). -/
def countSummaryConfigs (s : BQState) : Nat :=
  s.configs.countP (fun c => c.displayName == "Update Web Vitals Summary")

/-- Number of live scheduled-query transfer configs carrying the well-known
display name (the quantity the code actually controls). -/
def countScheduledSummaryConfigs (s : BQState) : Nat :=
  s.configs.countP (matchesScheduled "Update Web Vitals Summary")

/-! ## The environment-variable string of the alerting service (claim C8) -/

/-- The `--set-env-vars` string built by `deploy_cloudrun_alerter`
(deploy.py:347-355): nine adjacent f-string literals, with `^:^` declaring
`:` as the separator so the comma-separated recipients list survives. -/
def env_vars (gaProperty : String) (lcp cls fid : Val)
    (emailServer emailUser emailPassword emailFrom alertRecipients : String) :
    String :=
  "^:^ANALYTICS_ID=" ++ gaProperty ++ ":" ++
  "GOOD_LCP=" ++ lcp.format ++ ":" ++
  "GOOD_CLS=" ++ cls.format ++ ":" ++
  "GOOD_FID=" ++ fid.format ++ ":" ++
  "EMAIL_SERVER=" ++ emailServer ++ ":" ++
  "EMAIL_USER=" ++ emailUser ++ ":" ++
  "EMAIL_PASS=" ++ emailPassword ++ ":" ++
  "EMAIL_FROM=" ++ emailFrom ++ ":" ++
  "ALERT_RECEIVERS=" ++ alertRecipients

/-- Join a list of strings with `:` between consecutive elements. -/
def joinColon : List String → String
  | [] => ""
  | [a] => a
  | a :: b :: rest => a ++ ":" ++ joinColon (b :: rest)

/-! ## The trace model of `main` (deploy.py:519-695)

Every external API call the script attempts is recorded as an `Event`.
`add_roles_to_service_account` performs several IAM/CRM calls internally;
it is recorded as the single event `apiAddRoles` since no claim looks
inside it.  Likewise `deploy_scheduled_materialize_query` is one event in
the trace (its effect on the transfer-config collection is modelled above),
carrying the GA property and service account it was invoked with. -/

/-- One external API interaction attempted by `main`, in program order. -/
inductive Event where
  /-- `crm.projects().get` inside `enable_services`. -/
  | apiGetProject
  /-- `ServiceUsageClient.batch_enable_services` inside `enable_services`. -/
  | apiBatchEnableServices
  /-- `compute.regions().list` inside `get_gcp_regions` (one per `list`
  response to the region prompt). -/
  | apiListRegions
  /-- `iam serviceAccounts().list` inside `get_default_service_account_email`. -/
  | apiListServiceAccounts
  /-- the IAM/CRM calls of `add_roles_to_service_account`, with the account
  that the roles are granted to. -/
  | apiAddRoles (account : Option String)
  /-- `deploy_scheduled_materialize_query` (delete + create transfer config). -/
  | apiDeployMaterializeQuery (gaProperty : String) (serviceAccount : Option String)
  /-- the BigQuery job of `deploy_p75_procedure`. -/
  | apiDeployP75 (gaProperty : String)
  /-- the `gcloud run deploy` of `deploy_cloudrun_alerter`, with the
  arguments the function is invoked with. -/
  | apiDeployAlerter (gaProperty region : String) (lcp cls fid : Val)
      (emailServer emailUser emailPassword emailFrom alertRecipients : Option String)
  /-- the Eventarc delete+create of `create_cloudrun_trigger`. -/
  | apiCreateTrigger (serviceAccount : Option String)
deriving DecidableEq, Repr

/-- How the run ended. -/
inductive Outcome where
  /-- `main` returned normally. -/
  | completed
  /-- a `raise SystemExit(msg)` was reached. -/
  | exited (msg : String)
  /-- `os.environ['GOOGLE_CLOUD_PROJECT']` raised `KeyError`. -/
  | keyError
  /-- the modelled stream of region prompt responses was exhausted (the
  Python `while == 'list'` loop never left the loop). -/
  | noResponse
deriving DecidableEq, Repr

/-- What `google.auth.default()` returns about the ambient credentials:
whether they have a `service_account_email` attribute and, if so, its
value. -/
structure Creds where
  hasSAEmail : Bool
  saEmail : String
deriving DecidableEq, Repr

/-- The ambient cloud environment read by `main`: the project id resolved by
`google.auth.default()`, the `GOOGLE_CLOUD_PROJECT` environment variable,
and the service accounts the IAM list call would return. -/
structure CloudEnv where
  authProjectId : Option String
  googleCloudProject : Option String
  serviceAccounts : List ServiceAccount
deriving DecidableEq, Repr

/-- The result of `arg_parser.parse_args()` (deploy.py:528-591): `none`
means the flag was absent (`argparse` default `None`); the threshold flags
keep their text (`-l`/`-f`/`-c` have no `type=`), with `argparse` defaults
`2500`, `100` and `0.1` applied when absent; `emailAlert` defaults to
`True`.  `noArgs` records whether `len(sys.argv) == 1` (a bare interactive
invocation). -/
structure Flags where
  gaProperty : Option Int
  region : Option String
  lcpThreshold : Option String
  fidThreshold : Option String
  clsThreshold : Option String
  emailServer : Option String
  emailUser : Option String
  emailPassword : Option String
  emailFrom : Option String
  alertRecipients : Option String
  iamServiceAccount : Option String
  emailAlert : Bool
  noArgs : Bool
deriving DecidableEq, Repr

/-- The stripped responses the user gives at each interactive prompt.  The
region prompt can repeat (`list` prints the regions and asks again), so its
responses form a list consumed in order. -/
structure Prompts where
  regionResponses : List String
  gaPropertyResp : String
  saResp : String
  emailServerResp : String
  emailUserResp : String
  emailPasswordResp : String
  emailFromResp : String
  alertRecipientsResp : String
  lcpResp : String
  fidResp : String
  clsResp : String
deriving DecidableEq, Repr

/-- The post-`argparse` value of a threshold argument: the flag text when
the flag was given, the stated default otherwise. -/
def initVal (flag : Option String) (dflt : Val) : Val :=
  match flag with
  | some s => Val.strV s
  | none => dflt

/-- `project_id` resolution (deploy.py:593-595): keep the auth-provided id
when truthy, otherwise read `GOOGLE_CLOUD_PROJECT` (`none` = `KeyError`). -/
def resolveProjectId (env : CloudEnv) : Option String :=
  if optTruthy env.authProjectId then env.authProjectId else env.googleCloudProject

/-- The region prompt loop (deploy.py:599-607): consume responses until one
differs from `list`, emitting one `apiListRegions` event per `list`
response; `none` when the response stream runs out. -/
def regionLoop : List String → Option (String × List Event)
  | [] => none
  | r :: rest =>
    if r = "list" then
      match regionLoop rest with
      | none => none
      | some (region, evs) => some (region, Event.apiListRegions :: evs)
    else some (r, [])

/-- The region stage of `main`: prompt only when the `-r` flag is falsy. -/
def regionStage (f : Flags) (p : Prompts) : Option (String × List Event) :=
  if optTruthy f.region then some (f.region.getD "", [])
  else regionLoop p.regionResponses

/-- The GA-property stage (deploy.py:609-614): a truthy `-g` value is used
as-is (formatted by `str` downstream); otherwise the prompt response must
consist of digits or the run exits with the GA4 validation message. -/
def gaStage (f : Flags) (p : Prompts) : Except String String :=
  if intOptTruthy f.gaProperty then .ok (toString (f.gaProperty.getD 0))
  else if pyIsdigit p.gaPropertyResp then .ok p.gaPropertyResp
  else .error "Only GA4 properties are supported at this time."

/-- The credentials-derived service account assignment inside the
no-`-i`-flag branch (deploy.py:618-632): with a `service_account_email`
attribute equal to `'default'` the IAM list call resolves the default
account's email; with another value that value is used; without the
attribute the (falsy) flag value is left in place. -/
def saLookup (f : Flags) (creds : Creds) (env : CloudEnv) :
    Option String × List Event :=
  if creds.hasSAEmail then
    if creds.saEmail = "default" then
      (some (get_default_service_account_email env.serviceAccounts),
       [Event.apiListServiceAccounts])
    else (some creds.saEmail, [])
  else (f.iamServiceAccount, [])

/-- The service-account stage (deploy.py:616-642): skipped entirely when the
`-i` flag is truthy; otherwise the account is resolved from the
credentials, the user is prompted, and — as written in the source — an
empty response leads to `add_roles_to_service_account` while a non-empty
response raises `SystemExit`. -/
def saStage (f : Flags) (creds : Creds) (env : CloudEnv) (p : Prompts) :
    Except String (Option String × List Event) :=
  if optTruthy f.iamServiceAccount then .ok (f.iamServiceAccount, [])
  else
    let (iamSA, evs) := saLookup f creds env
    if p.saResp = "" then .ok (iamSA, evs ++ [Event.apiAddRoles iamSA])
    else .error ("You must provide a service account for deploying and " ++
      "running the solution to continue. Please create a service account and" ++
      " try again.")

/-- The resolved email server: the `-s` flag when truthy, else the prompt
response (deploy.py:648-651). -/
def resolvedServer (f : Flags) (p : Prompts) : Option String :=
  if optTruthy f.emailServer then f.emailServer else some p.emailServerResp

/-- The resolved email user: the `-u` flag when truthy, else the prompt
response (deploy.py:653-656). -/
def resolvedUser (f : Flags) (p : Prompts) : Option String :=
  if optTruthy f.emailUser then f.emailUser else some p.emailUserResp

/-- The resolved email password: the `-p` flag when truthy, else the prompt
response (deploy.py:657-660). -/
def resolvedPassword (f : Flags) (p : Prompts) : Option String :=
  if optTruthy f.emailPassword then f.emailPassword else some p.emailPasswordResp

/-- The resolved From address: the `-e` flag when truthy, else the prompt
response (deploy.py:661-664). -/
def resolvedFrom (f : Flags) (p : Prompts) : Option String :=
  if optTruthy f.emailFrom then f.emailFrom else some p.emailFromResp

/-- The resolved recipients list: the `-a` flag when truthy, else the prompt
response (deploy.py:665-668). -/
def resolvedRecipients (f : Flags) (p : Prompts) : Option String :=
  if optTruthy f.alertRecipients then f.alertRecipients
  else some p.alertRecipientsResp

/-- The LCP threshold handed to `deploy_cloudrun_alerter`
(deploy.py:672-677): on a bare interactive invocation (`len(sys.argv) == 1`)
the prompt response replaces the current value; a falsy value is then
replaced by the int literal `2055`. -/
def lcpFinal (f : Flags) (p : Prompts) : Val :=
  let lcp1 := if f.noArgs then Val.strV p.lcpResp
              else initVal f.lcpThreshold (Val.intV 2500)
  if lcp1.truthy then lcp1 else Val.intV 2055

/-- The FID threshold handed to `deploy_cloudrun_alerter`
(deploy.py:678-682): the prompt response replaces the current value
unconditionally; a falsy response is replaced by the int `100`.  Note the
flags play no part. -/
def fidFinal (p : Prompts) : Val :=
  if (Val.strV p.fidResp).truthy then Val.strV p.fidResp else Val.intV 100

/-- The CLS threshold handed to `deploy_cloudrun_alerter`
(deploy.py:683-686): the prompt response replaces the current value
unconditionally; a falsy response is replaced by the float `0.1`.  Note the
flags play no part. -/
def clsFinal (p : Prompts) : Val :=
  if (Val.strV p.clsResp).truthy then Val.strV p.clsResp else Val.floatV01

/-- The email-alerting block of `main` (deploy.py:647-695): under
`--email-alert` (the default), the email server is resolved; when it is
truthy the remaining email fields and the thresholds are resolved from
flags or prompts; the p75 procedure is deployed whenever alerting is
enabled, and the alerter and trigger only when the server is truthy. -/
def emailStage (f : Flags) (p : Prompts) (ga region : String)
    (iamSA : Option String) : List Event :=
  if f.emailAlert then
    if optTruthy (resolvedServer f p) then
      [Event.apiDeployP75 ga,
       Event.apiDeployAlerter ga region (lcpFinal f p) (clsFinal p) (fidFinal p)
         (resolvedServer f p) (resolvedUser f p) (resolvedPassword f p)
         (resolvedFrom f p) (resolvedRecipients f p),
       Event.apiCreateTrigger iamSA]
    else
      [Event.apiDeployP75 ga]
  else []

/-- `main` (deploy.py:519-695) as a trace transformer: resolve the project
id, enable services, resolve the region, the GA property and the service
account (in that order, exiting on their failures), deploy the scheduled
materialize query, then run the email-alerting block. -/
def runMain (f : Flags) (creds : Creds) (env : CloudEnv) (p : Prompts) :
    List Event × Outcome :=
  match resolveProjectId env with
  | none => ([], Outcome.keyError)
  | some _ =>
    let enableEvs := [Event.apiGetProject, Event.apiBatchEnableServices]
    match regionStage f p with
    | none => (enableEvs, Outcome.noResponse)
    | some (region, regionEvs) =>
      match gaStage f p with
      | .error msg => (enableEvs ++ regionEvs, Outcome.exited msg)
      | .ok ga =>
        match saStage f creds env p with
        | .error msg => (enableEvs ++ regionEvs, Outcome.exited msg)
        | .ok (iamSA, saEvs) =>
          (enableEvs ++ regionEvs ++ saEvs ++
            [Event.apiDeployMaterializeQuery ga iamSA] ++
            emailStage f p ga region iamSA,
           Outcome.completed)

/-- Recognizer for the role-grant event. -/
def isAddRolesEvt : Event → Bool
  | .apiAddRoles _ => true
  | _ => false

/-- Recognizer for the scheduled-materialize-query event. -/
def isMaterializeEvt : Event → Bool
  | .apiDeployMaterializeQuery _ _ => true
  | _ => false

/-- Recognizer for the p75 stored-procedure event. -/
def isP75Evt : Event → Bool
  | .apiDeployP75 _ => true
  | _ => false

/-- Recognizer for the alerting-service deployment event. -/
def isAlerterEvt : Event → Bool
  | .apiDeployAlerter _ _ _ _ _ _ _ _ _ _ => true
  | _ => false

/-- Recognizer for the event-trigger creation event. -/
def isTriggerEvt : Event → Bool
  | .apiCreateTrigger _ => true
  | _ => false

/-- `occursBefore p q t`: some event satisfying `p` occurs strictly before
some event satisfying `q` in the trace `t`. -/
def occursBefore (p q : Event → Bool) : List Event → Bool
  | [] => false
  | e :: rest => (p e && rest.any q) || occursBefore p q rest

/-! ## Concrete runs used to exercise the model -/

/-- A bare interactive invocation: no flags at all (`len(sys.argv) == 1`),
so `email_alert` keeps its default `True`. -/
def flagsInteractive : Flags :=
  ⟨none, none, none, none, none, none, none, none, none, none, none, true, true⟩

/-- An invocation with only `--no-email-alert` on the command line. -/
def flagsNoAlert : Flags :=
  ⟨none, none, none, none, none, none, none, none, none, none, none, false, false⟩

/-- Ambient credentials whose `service_account_email` is `'default'`. -/
def credsDefaultSA : Creds := ⟨true, "default"⟩

/-- Ambient credentials carrying a concrete service-account email. -/
def credsNamedSA : Creds := ⟨true, "sa@proj.iam.gserviceaccount.com"⟩

/-- An environment with a resolved project id and one default compute
service account. -/
def envOneDefaultSA : CloudEnv :=
  ⟨some "project-1", none,
   [⟨"Default compute service account",
     "123-compute@developer.gserviceaccount.com"⟩]⟩

/-- An environment with a resolved project id and no service accounts. -/
def envPlain : CloudEnv := ⟨some "project-1", none, []⟩

/-- Prompt responses: a region, a digit GA property, and empty answers
everywhere else. -/
def promptsQuiet : Prompts :=
  ⟨["us-west1"], "123", "", "", "", "", "", "", "", "", ""⟩

/-- Like `promptsQuiet` but with a non-digit GA property response. -/
def promptsBadGa : Prompts := { promptsQuiet with gaPropertyResp := "abc" }

/-- Like `promptsQuiet` but supplying a service account at the prompt. -/
def promptsWithSA : Prompts :=
  { promptsQuiet with saResp := "user@other.iam.gserviceaccount.com" }

/-- A fully interactive session: region, GA property, email settings all
answered, every threshold prompt left empty. -/
def promptsFull : Prompts :=
  ⟨["us-central1"], "123456789", "", "smtp.example.com", "u", "pw",
   "from@x.com", "a@x.com,b@x.com", "", "", ""⟩

/-- A pre-existing transfer-config collection holding one config that bears
the well-known display name but belongs to the `google_ads` data source. -/
def strayAdsState : BQState :=
  ⟨[⟨"transferConfigs/0", "Update Web Vitals Summary", "google_ads"⟩], 1⟩

/-- A pre-existing collection holding two scheduled queries with the
well-known display name (display names are not unique) plus an unrelated
one. -/
def dupScheduledState : BQState :=
  ⟨[⟨"transferConfigs/0", "Update Web Vitals Summary", "scheduled_query"⟩,
    ⟨"transferConfigs/1", "Update Web Vitals Summary", "scheduled_query"⟩,
    ⟨"transferConfigs/2", "Other query", "scheduled_query"⟩], 3⟩

/-- Flags supplying FID/CLS thresholds plus full email settings. -/
def flagsWithThresholds : Flags :=
  ⟨none, some "us-east1", none, some "42", some "0.7", some "smtp.example.com",
   some "u", some "p", some "f@x.com", some "a@x.com", some "sa@x.iam", true,
   false⟩

/-! ## General-purpose lemmas -/

theorem strAppend_assoc (a b c : String) : (a ++ b) ++ c = a ++ (b ++ c) := by
  apply String.ext
  simp [String.data_append]

theorem countP_filter_not {α : Type} (p : α → Bool) (l : List α) :
    (l.filter (fun c => !(p c))).countP p = 0 := by
  rw [List.countP_eq_zero]
  intro a ha
  rw [List.mem_filter] at ha
  simpa using ha.2

theorem startsList_iff :
    ∀ (n h : List Char), startsList n h = true ↔ ∃ post, h = n ++ post
  | [], h => by simp [startsList]
  | _ :: _, [] => by simp [startsList]
  | n :: ns, hh :: ht => by
    simp only [startsList, Bool.and_eq_true, beq_iff_eq, startsList_iff ns ht,
      List.cons_append, List.cons.injEq]
    constructor
    · rintro ⟨rfl, post, rfl⟩
      exact ⟨post, rfl, rfl⟩
    · rintro ⟨post, rfl, rfl⟩
      exact ⟨rfl, post, rfl⟩

theorem findSub_iff (h n : List Char) :
    findSub h n = true ↔ ∃ pre post, h = pre ++ n ++ post := by
  induction h with
  | nil =>
    simp only [findSub, startsList_iff]
    constructor
    · rintro ⟨post, hp⟩
      exact ⟨[], post, hp⟩
    · rintro ⟨pre, post, hp⟩
      rcases List.append_eq_nil.mp (List.append_eq_nil.mp hp.symm).1 with ⟨-, h2⟩
      exact ⟨post, by simp_all⟩
  | cons c t ih =>
    simp only [findSub, Bool.or_eq_true, startsList_iff, ih]
    constructor
    · rintro (⟨post, hp⟩ | ⟨pre, post, hp⟩)
      · exact ⟨[], post, by simpa using hp⟩
      · exact ⟨c :: pre, post, by simp [hp]⟩
    · rintro ⟨pre, post, hp⟩
      cases pre with
      | nil => exact Or.inl ⟨post, by simpa using hp⟩
      | cons q qs =>
        rcases (List.cons_eq_cons.mp (by simpa using hp)) with ⟨rfl, h2⟩
        exact Or.inr ⟨qs, post, by simpa using h2⟩

theorem regionLoop_events :
    ∀ (rs : List String) (region : String) (evs : List Event),
      regionLoop rs = some (region, evs) → ∀ e ∈ evs, e = Event.apiListRegions
  | [], region, evs => by simp [regionLoop]
  | r :: rest, region, evs => by
    intro h e he
    by_cases hr : r = "list"
    · rw [regionLoop, if_pos hr] at h
      cases hm : regionLoop rest with
      | none => rw [hm] at h; exact absurd h (by simp)
      | some pr =>
        rw [hm] at h
        obtain ⟨reg, evs'⟩ := pr
        simp only [Option.some.injEq, Prod.mk.injEq] at h
        obtain ⟨rfl, rfl⟩ := h
        rcases List.mem_cons.mp he with h1 | h1
        · exact h1
        · exact regionLoop_events rest reg evs' hm e h1
    · rw [regionLoop, if_neg hr] at h
      simp only [Option.some.injEq, Prod.mk.injEq] at h
      obtain ⟨-, rfl⟩ := h
      simp at he

theorem regionStage_events (f : Flags) (p : Prompts) (region : String)
    (evs : List Event) (h : regionStage f p = some (region, evs)) :
    ∀ e ∈ evs, e = Event.apiListRegions := by
  unfold regionStage at h
  by_cases ht : optTruthy f.region = true
  · rw [if_pos ht] at h
    simp only [Option.some.injEq, Prod.mk.injEq] at h
    obtain ⟨-, rfl⟩ := h
    simp
  · rw [if_neg ht] at h
    exact regionLoop_events p.regionResponses region evs h

theorem saLookup_events (f : Flags) (creds : Creds) (env : CloudEnv) :
    ∀ e ∈ (saLookup f creds env).2, e = Event.apiListServiceAccounts := by
  unfold saLookup
  by_cases h1 : creds.hasSAEmail = true
  · by_cases h2 : creds.saEmail = "default" <;> simp [h1, h2]
  · simp [h1]

theorem saStage_ok_events (f : Flags) (creds : Creds) (env : CloudEnv)
    (p : Prompts) (iamSA : Option String) (evs : List Event)
    (h : saStage f creds env p = .ok (iamSA, evs)) :
    ∀ e ∈ evs, e = Event.apiListServiceAccounts ∨ e = Event.apiAddRoles iamSA := by
  unfold saStage at h
  by_cases h1 : optTruthy f.iamServiceAccount = true
  · rw [if_pos h1] at h
    simp only [Except.ok.injEq, Prod.mk.injEq] at h
    obtain ⟨-, rfl⟩ := h
    simp
  · rw [if_neg h1] at h
    rcases hsl : saLookup f creds env with ⟨sa1, evs1⟩
    rw [hsl] at h
    dsimp only at h
    by_cases h2 : p.saResp = ""
    · rw [if_pos h2] at h
      simp only [Except.ok.injEq, Prod.mk.injEq] at h
      obtain ⟨rfl, rfl⟩ := h
      intro e he
      rcases List.mem_append.mp he with he | he
      · exact Or.inl (by simpa using saLookup_events f creds env e (hsl ▸ he))
      · exact Or.inr (by simpa using he)
    · rw [if_neg h2] at h
      exact absurd h (by simp)

theorem occursBefore_append_right (p q : Event → Bool) (A B : List Event)
    (h : occursBefore p q B = true) : occursBefore p q (A ++ B) = true := by
  induction A with
  | nil => simpa using h
  | cons e rest ih => simp [occursBefore, ih]

theorem preStage_events_not_email (f : Flags) (creds : Creds) (env : CloudEnv)
    (p : Prompts) (region : String) (revs saEvs : List Event)
    (iamSA : Option String)
    (hreg : regionStage f p = some (region, revs))
    (hsa : saStage f creds env p = .ok (iamSA, saEvs)) :
    revs.any isAlerterEvt = false ∧ revs.any isTriggerEvt = false ∧
    revs.any isP75Evt = false ∧ saEvs.any isAlerterEvt = false ∧
    saEvs.any isTriggerEvt = false ∧ saEvs.any isP75Evt = false := by
  have hr := regionStage_events f p region revs hreg
  have hs := saStage_ok_events f creds env p iamSA saEvs hsa
  refine ⟨?_, ?_, ?_, ?_, ?_, ?_⟩ <;> rw [List.any_eq_false] <;> intro e he
  · rw [hr e he]; simp [isAlerterEvt]
  · rw [hr e he]; simp [isTriggerEvt]
  · rw [hr e he]; simp [isP75Evt]
  · rcases hs e he with h | h <;> rw [h] <;> simp [isAlerterEvt]
  · rcases hs e he with h | h <;> rw [h] <;> simp [isTriggerEvt]
  · rcases hs e he with h | h <;> rw [h] <;> simp [isP75Evt]

/-! ## The claims -/

/-- C1, counterexample: a pre-existing transfer config carrying the
well-known display name but the `google_ads` data source is not listed by
`delete_scheduled_query` (the list call filters on
`data_source_ids=['scheduled_query']`), so it survives the install and two
configs with the display name are live afterwards, refuting "every
pre-existing transfer config whose display name equals 'Update Web Vitals
Summary' is deleted / exactly one such config exists after install". -/
theorem c1_counterexample :
    countSummaryConfigs (deploy_scheduled_materialize_query strayAdsState) = 2 ∧
    (⟨"transferConfigs/0", "Update Web Vitals Summary", "google_ads"⟩ :
      TransferConfig) ∈
      (deploy_scheduled_materialize_query strayAdsState).configs :=
  ⟨by decide, by decide⟩

/-- C1, amended: every pre-existing **scheduled-query** transfer config
(data source `scheduled_query`) whose display name equals
`'Update Web Vitals Summary'` is deleted before the replacement is created;
after a successful install exactly one live scheduled-query transfer config
with that display name exists, and running the install twice consecutively
also leaves exactly one. -/
theorem c1_scheduled_query_replacement (s : BQState) (c : TransferConfig)
    (_hmem : c ∈ s.configs) (hds : c.dataSourceId = "scheduled_query")
    (hdn : c.displayName = "Update Web Vitals Summary") :
    c ∉ (delete_scheduled_query "Update Web Vitals Summary" s).configs ∧
    countScheduledSummaryConfigs (deploy_scheduled_materialize_query s) = 1 ∧
    countScheduledSummaryConfigs
      (deploy_scheduled_materialize_query
        (deploy_scheduled_materialize_query s)) = 1 := by
  have key : ∀ t : BQState,
      countScheduledSummaryConfigs (deploy_scheduled_materialize_query t) = 1 := by
    intro t
    simp only [deploy_scheduled_materialize_query, countScheduledSummaryConfigs,
      delete_scheduled_query, List.countP_append, countP_filter_not]
    simp [List.countP, List.countP.go, matchesScheduled]
  refine ⟨?_, key s, key _⟩
  intro hin
  rw [delete_scheduled_query] at hin
  simp only [List.mem_filter] at hin
  rw [matchesScheduled] at hin
  simp [hds, hdn] at hin

/-- Witness for `c1_scheduled_query_replacement`: a collection holding two
scheduled queries with the well-known display name. -/
theorem c1_scheduled_query_replacement_witness :
    ((⟨"transferConfigs/0", "Update Web Vitals Summary", "scheduled_query"⟩ :
        TransferConfig) ∈ dupScheduledState.configs ∧
      (⟨"transferConfigs/0", "Update Web Vitals Summary", "scheduled_query"⟩ :
        TransferConfig).dataSourceId = "scheduled_query" ∧
      (⟨"transferConfigs/0", "Update Web Vitals Summary", "scheduled_query"⟩ :
        TransferConfig).displayName = "Update Web Vitals Summary") ∧
    ((⟨"transferConfigs/0", "Update Web Vitals Summary", "scheduled_query"⟩ :
        TransferConfig) ∉
        (delete_scheduled_query "Update Web Vitals Summary"
          dupScheduledState).configs ∧
      countScheduledSummaryConfigs
        (deploy_scheduled_materialize_query dupScheduledState) = 1 ∧
      countScheduledSummaryConfigs
        (deploy_scheduled_materialize_query
          (deploy_scheduled_materialize_query dupScheduledState)) = 1) :=
  ⟨⟨by decide, rfl, rfl⟩,
   c1_scheduled_query_replacement dupScheduledState _ (by decide) rfl rfl⟩

/-- C2, counterexample: with the GA property supplied at the prompt as
`'abc'`, the run does exit with the GA4 validation message, but the trace
already holds the two `enable_services` API calls, refuting "no cloud API
call is made before that failure". -/
theorem c2_counterexample :
    runMain flagsNoAlert credsNamedSA envPlain promptsBadGa =
      ([Event.apiGetProject, Event.apiBatchEnableServices],
       Outcome.exited "Only GA4 properties are supported at this time.") ∧
    (runMain flagsNoAlert credsNamedSA envPlain promptsBadGa).1 ≠ [] :=
  ⟨by decide, by decide⟩

/-- C2, amended: for every configuration whose GA property id is supplied at
the prompt and is not all digits, the run fails with the validation error
`'Only GA4 properties are supported at this time.'`, but only after the
service-enabling API calls (and any region-listing calls) have been made. -/
theorem c2_validation_after_enable (f : Flags) (creds : Creds) (env : CloudEnv)
    (p : Prompts) (pid region : String) (revs : List Event)
    (hpid : resolveProjectId env = some pid)
    (hreg : regionStage f p = some (region, revs))
    (hga : f.gaProperty = none)
    (hdig : pyIsdigit p.gaPropertyResp = false) :
    runMain f creds env p =
      ([Event.apiGetProject, Event.apiBatchEnableServices] ++ revs,
       Outcome.exited "Only GA4 properties are supported at this time.") := by
  have hga' : gaStage f p =
      .error "Only GA4 properties are supported at this time." := by
    simp [gaStage, hga, intOptTruthy, hdig]
  simp only [runMain, hpid, hreg, hga']

/-- Witness for `c2_validation_after_enable`. -/
theorem c2_validation_after_enable_witness :
    (resolveProjectId envPlain = some "project-1" ∧
     regionStage flagsNoAlert promptsBadGa = some ("us-west1", []) ∧
     flagsNoAlert.gaProperty = none ∧
     pyIsdigit promptsBadGa.gaPropertyResp = false) ∧
    runMain flagsNoAlert credsNamedSA envPlain promptsBadGa =
      ([Event.apiGetProject, Event.apiBatchEnableServices] ++ [],
       Outcome.exited "Only GA4 properties are supported at this time.") :=
  ⟨⟨rfl, rfl, rfl, by decide⟩,
   c2_validation_after_enable flagsNoAlert credsNamedSA envPlain promptsBadGa
     "project-1" "us-west1" [] rfl rfl rfl (by decide)⟩

/-- C3: when no service-account flag is given, the code grants the dedicated
role exactly when the prompt response is empty (first conjunct: the run with
an empty response performs `apiAddRoles` and completes), but a run where the
user supplies a non-empty service-account email at the prompt does **not**
proceed: it raises `SystemExit` demanding a service account (second
conjunct), contradicting the claim and the message's own meaning. -/
theorem c3_service_account_prompt_behavior :
    runMain flagsNoAlert credsNamedSA envPlain promptsQuiet =
      ([Event.apiGetProject, Event.apiBatchEnableServices,
        Event.apiAddRoles (some "sa@proj.iam.gserviceaccount.com"),
        Event.apiDeployMaterializeQuery "123"
          (some "sa@proj.iam.gserviceaccount.com")],
       Outcome.completed) ∧
    runMain flagsNoAlert credsNamedSA envPlain promptsWithSA =
      ([Event.apiGetProject, Event.apiBatchEnableServices],
       Outcome.exited
         ("You must provide a service account for deploying and " ++
          "running the solution to continue. Please create a service account and" ++
          " try again.")) :=
  ⟨by decide, by decide⟩

/-- C4, counterexample: in a run that reaches deployment via the
service-account prompt, the role grant and the materialize-query install
both occur, yet the materialize install never precedes the grant — the
spec's order "materialized-view query → permission grant" is inverted in the
code. -/
theorem c4_counterexample :
    (runMain flagsNoAlert credsNamedSA envPlain promptsQuiet).1.any
        isAddRolesEvt = true ∧
    (runMain flagsNoAlert credsNamedSA envPlain promptsQuiet).1.any
        isMaterializeEvt = true ∧
    occursBefore isMaterializeEvt isAddRolesEvt
      (runMain flagsNoAlert credsNamedSA envPlain promptsQuiet).1 = false :=
  ⟨by decide, by decide, by decide⟩

/-- C4, amended: in every run that reaches deployment through the
service-account prompt, the permission-grant stage executes immediately
**before** the scheduled materialized-query install, and the stored
procedure, notification service and event trigger, when they run, come
after both (they form the trailing `emailStage` segment of the trace). -/
theorem c4_grant_before_materialize (f : Flags) (creds : Creds)
    (env : CloudEnv) (p : Prompts) (pid region ga : String)
    (revs : List Event)
    (hpid : resolveProjectId env = some pid)
    (hreg : regionStage f p = some (region, revs))
    (hga : gaStage f p = .ok ga)
    (hflag : optTruthy f.iamServiceAccount = false)
    (hresp : p.saResp = "") :
    runMain f creds env p =
      ([Event.apiGetProject, Event.apiBatchEnableServices] ++ revs ++
        (saLookup f creds env).2 ++
        [Event.apiAddRoles (saLookup f creds env).1,
         Event.apiDeployMaterializeQuery ga (saLookup f creds env).1] ++
        emailStage f p ga region (saLookup f creds env).1,
       Outcome.completed) ∧
    occursBefore isAddRolesEvt isMaterializeEvt (runMain f creds env p).1 =
      true := by
  have hsa : saStage f creds env p =
      .ok ((saLookup f creds env).1,
        (saLookup f creds env).2 ++
          [Event.apiAddRoles (saLookup f creds env).1]) := by
    rw [saStage, if_neg (by simp [hflag])]
    rcases hsl : saLookup f creds env with ⟨a, b⟩
    dsimp only
    rw [if_pos hresp]
  have h1 : runMain f creds env p =
      ([Event.apiGetProject, Event.apiBatchEnableServices] ++ revs ++
        (saLookup f creds env).2 ++
        [Event.apiAddRoles (saLookup f creds env).1,
         Event.apiDeployMaterializeQuery ga (saLookup f creds env).1] ++
        emailStage f p ga region (saLookup f creds env).1,
       Outcome.completed) := by
    simp only [runMain, hpid, hreg, hga, hsa]
    simp [List.append_assoc]
  refine ⟨h1, ?_⟩
  rw [h1]
  dsimp only
  rw [List.append_assoc]
  exact occursBefore_append_right _ _ _ _
    (by simp [occursBefore, isAddRolesEvt, isMaterializeEvt])

/-- Witness for `c4_grant_before_materialize`. -/
theorem c4_grant_before_materialize_witness :
    (resolveProjectId envPlain = some "project-1" ∧
     regionStage flagsNoAlert promptsQuiet = some ("us-west1", []) ∧
     gaStage flagsNoAlert promptsQuiet = .ok "123" ∧
     optTruthy flagsNoAlert.iamServiceAccount = false ∧
     promptsQuiet.saResp = "") ∧
    (runMain flagsNoAlert credsNamedSA envPlain promptsQuiet =
      ([Event.apiGetProject, Event.apiBatchEnableServices] ++ [] ++
        (saLookup flagsNoAlert credsNamedSA envPlain).2 ++
        [Event.apiAddRoles (saLookup flagsNoAlert credsNamedSA envPlain).1,
         Event.apiDeployMaterializeQuery "123"
           (saLookup flagsNoAlert credsNamedSA envPlain).1] ++
        emailStage flagsNoAlert promptsQuiet "123" "us-west1"
          (saLookup flagsNoAlert credsNamedSA envPlain).1,
       Outcome.completed) ∧
     occursBefore isAddRolesEvt isMaterializeEvt
       (runMain flagsNoAlert credsNamedSA envPlain promptsQuiet).1 = true) :=
  ⟨⟨rfl, rfl, rfl, rfl, rfl⟩,
   c4_grant_before_materialize flagsNoAlert credsNamedSA envPlain promptsQuiet
     "project-1" "us-west1" "123" [] rfl rfl rfl rfl rfl⟩

/-- C5: on a bare interactive run (no flags) with the LCP prompt answered
empty, the LCP threshold handed to the notification service is the int
`2055`, not the documented default `2500` — the full run evaluation shows
`2055` inside the `apiDeployAlerter` event. -/
theorem c5_lcp_fallback_is_2055 :
    lcpFinal flagsInteractive promptsFull = Val.intV 2055 ∧
    lcpFinal flagsInteractive promptsFull ≠ Val.intV 2500 ∧
    runMain flagsInteractive credsDefaultSA envOneDefaultSA promptsFull =
      ([Event.apiGetProject, Event.apiBatchEnableServices,
        Event.apiListServiceAccounts,
        Event.apiAddRoles (some "123-compute@developer.gserviceaccount.com"),
        Event.apiDeployMaterializeQuery "123456789"
          (some "123-compute@developer.gserviceaccount.com"),
        Event.apiDeployP75 "123456789",
        Event.apiDeployAlerter "123456789" "us-central1" (Val.intV 2055)
          Val.floatV01 (Val.intV 100) (some "smtp.example.com") (some "u")
          (some "pw") (some "from@x.com") (some "a@x.com,b@x.com"),
        Event.apiCreateTrigger
          (some "123-compute@developer.gserviceaccount.com")],
       Outcome.completed) :=
  ⟨by decide, by decide, by decide⟩

/-- C6: with email alerting enabled but an empty email-server field (flag
absent, prompt answered empty), the notification-service and event-trigger
stages are skipped, the stored-procedure stage still executes, and the run
completes without error. -/
theorem c6_empty_server_skips_alerter (f : Flags) (creds : Creds)
    (env : CloudEnv) (p : Prompts) (pid region ga : String)
    (revs saEvs : List Event) (iamSA : Option String)
    (hpid : resolveProjectId env = some pid)
    (hreg : regionStage f p = some (region, revs))
    (hga : gaStage f p = .ok ga)
    (hsa : saStage f creds env p = .ok (iamSA, saEvs))
    (hea : f.emailAlert = true)
    (hserver : f.emailServer = none)
    (hresp : p.emailServerResp = "") :
    runMain f creds env p =
      ([Event.apiGetProject, Event.apiBatchEnableServices] ++ revs ++ saEvs ++
        [Event.apiDeployMaterializeQuery ga iamSA, Event.apiDeployP75 ga],
       Outcome.completed) ∧
    (runMain f creds env p).1.any isP75Evt = true ∧
    (runMain f creds env p).1.any isAlerterEvt = false ∧
    (runMain f creds env p).1.any isTriggerEvt = false := by
  have hemail : emailStage f p ga region iamSA = [Event.apiDeployP75 ga] := by
    simp [emailStage, hea, resolvedServer, hserver, hresp, optTruthy]
  have h1 : runMain f creds env p =
      ([Event.apiGetProject, Event.apiBatchEnableServices] ++ revs ++ saEvs ++
        [Event.apiDeployMaterializeQuery ga iamSA, Event.apiDeployP75 ga],
       Outcome.completed) := by
    simp only [runMain, hpid, hreg, hga, hsa, hemail]
    simp [List.append_assoc]
  obtain ⟨hrA, hrT, hrP, hsA, hsT, hsP⟩ :=
    preStage_events_not_email f creds env p region revs saEvs iamSA hreg hsa
  refine ⟨h1, ?_, ?_, ?_⟩ <;> rw [h1] <;> dsimp only <;>
    simp [List.any_append, hrA, hrT, hrP, hsA, hsT, hsP, isP75Evt,
      isAlerterEvt, isTriggerEvt]

/-- Witness for `c6_empty_server_skips_alerter`. -/
theorem c6_empty_server_skips_alerter_witness :
    (resolveProjectId envPlain = some "project-1" ∧
     regionStage flagsInteractive promptsQuiet = some ("us-west1", []) ∧
     gaStage flagsInteractive promptsQuiet = .ok "123" ∧
     saStage flagsInteractive credsNamedSA envPlain promptsQuiet =
       .ok (some "sa@proj.iam.gserviceaccount.com",
         [Event.apiAddRoles (some "sa@proj.iam.gserviceaccount.com")]) ∧
     flagsInteractive.emailAlert = true ∧
     flagsInteractive.emailServer = none ∧
     promptsQuiet.emailServerResp = "") ∧
    (runMain flagsInteractive credsNamedSA envPlain promptsQuiet =
      ([Event.apiGetProject, Event.apiBatchEnableServices] ++ [] ++
        [Event.apiAddRoles (some "sa@proj.iam.gserviceaccount.com")] ++
        [Event.apiDeployMaterializeQuery "123"
           (some "sa@proj.iam.gserviceaccount.com"),
         Event.apiDeployP75 "123"],
       Outcome.completed) ∧
     (runMain flagsInteractive credsNamedSA envPlain promptsQuiet).1.any
       isP75Evt = true ∧
     (runMain flagsInteractive credsNamedSA envPlain promptsQuiet).1.any
       isAlerterEvt = false ∧
     (runMain flagsInteractive credsNamedSA envPlain promptsQuiet).1.any
       isTriggerEvt = false) :=
  ⟨⟨rfl, rfl, rfl, rfl, rfl, rfl, rfl⟩,
   c6_empty_server_skips_alerter flagsInteractive credsNamedSA envPlain
     promptsQuiet "project-1" "us-west1" "123" []
     [Event.apiAddRoles (some "sa@proj.iam.gserviceaccount.com")]
     (some "sa@proj.iam.gserviceaccount.com") rfl rfl rfl rfl rfl rfl rfl⟩

/-- C7: with email alerting disabled (`--no-email-alert`), the
stored-procedure, notification-service and event-trigger stages do not
execute at all and the run completes without error. -/
theorem c7_no_alert_skips_all (f : Flags) (creds : Creds) (env : CloudEnv)
    (p : Prompts) (pid region ga : String) (revs saEvs : List Event)
    (iamSA : Option String)
    (hpid : resolveProjectId env = some pid)
    (hreg : regionStage f p = some (region, revs))
    (hga : gaStage f p = .ok ga)
    (hsa : saStage f creds env p = .ok (iamSA, saEvs))
    (hea : f.emailAlert = false) :
    runMain f creds env p =
      ([Event.apiGetProject, Event.apiBatchEnableServices] ++ revs ++ saEvs ++
        [Event.apiDeployMaterializeQuery ga iamSA],
       Outcome.completed) ∧
    (runMain f creds env p).1.any isP75Evt = false ∧
    (runMain f creds env p).1.any isAlerterEvt = false ∧
    (runMain f creds env p).1.any isTriggerEvt = false := by
  have hemail : emailStage f p ga region iamSA = [] := by
    simp [emailStage, hea]
  have h1 : runMain f creds env p =
      ([Event.apiGetProject, Event.apiBatchEnableServices] ++ revs ++ saEvs ++
        [Event.apiDeployMaterializeQuery ga iamSA],
       Outcome.completed) := by
    simp only [runMain, hpid, hreg, hga, hsa, hemail]
    simp [List.append_assoc]
  obtain ⟨hrA, hrT, hrP, hsA, hsT, hsP⟩ :=
    preStage_events_not_email f creds env p region revs saEvs iamSA hreg hsa
  refine ⟨h1, ?_, ?_, ?_⟩ <;> rw [h1] <;> dsimp only <;>
    simp [List.any_append, hrA, hrT, hrP, hsA, hsT, hsP, isP75Evt,
      isAlerterEvt, isTriggerEvt]

/-- Witness for `c7_no_alert_skips_all`. -/
theorem c7_no_alert_skips_all_witness :
    (resolveProjectId envPlain = some "project-1" ∧
     regionStage flagsNoAlert promptsQuiet = some ("us-west1", []) ∧
     gaStage flagsNoAlert promptsQuiet = .ok "123" ∧
     saStage flagsNoAlert credsNamedSA envPlain promptsQuiet =
       .ok (some "sa@proj.iam.gserviceaccount.com",
         [Event.apiAddRoles (some "sa@proj.iam.gserviceaccount.com")]) ∧
     flagsNoAlert.emailAlert = false) ∧
    (runMain flagsNoAlert credsNamedSA envPlain promptsQuiet =
      ([Event.apiGetProject, Event.apiBatchEnableServices] ++ [] ++
        [Event.apiAddRoles (some "sa@proj.iam.gserviceaccount.com")] ++
        [Event.apiDeployMaterializeQuery "123"
           (some "sa@proj.iam.gserviceaccount.com")],
       Outcome.completed) ∧
     (runMain flagsNoAlert credsNamedSA envPlain promptsQuiet).1.any
       isP75Evt = false ∧
     (runMain flagsNoAlert credsNamedSA envPlain promptsQuiet).1.any
       isAlerterEvt = false ∧
     (runMain flagsNoAlert credsNamedSA envPlain promptsQuiet).1.any
       isTriggerEvt = false) :=
  ⟨⟨rfl, rfl, rfl, rfl, rfl⟩,
   c7_no_alert_skips_all flagsNoAlert credsNamedSA envPlain promptsQuiet
     "project-1" "us-west1" "123" []
     [Event.apiAddRoles (some "sa@proj.iam.gserviceaccount.com")]
     (some "sa@proj.iam.gserviceaccount.com") rfl rfl rfl rfl rfl⟩

/-- C8: for every run that deploys the notification service, the
environment-variable string starts with the separator declaration `^:^` and
is exactly the nine assignments `ANALYTICS_ID`, `GOOD_LCP`, `GOOD_CLS`,
`GOOD_FID`, `EMAIL_SERVER`, `EMAIL_USER`, `EMAIL_PASS`, `EMAIL_FROM`,
`ALERT_RECEIVERS`, in that order, joined by `:`. -/
theorem c8_env_vars_colon_joined (ga : String) (lcp cls fid : Val)
    (server user password efrom recipients : String) :
    env_vars ga lcp cls fid server user password efrom recipients =
      "^:^" ++ joinColon
        ["ANALYTICS_ID=" ++ ga,
         "GOOD_LCP=" ++ lcp.format,
         "GOOD_CLS=" ++ cls.format,
         "GOOD_FID=" ++ fid.format,
         "EMAIL_SERVER=" ++ server,
         "EMAIL_USER=" ++ user,
         "EMAIL_PASS=" ++ password,
         "EMAIL_FROM=" ++ efrom,
         "ALERT_RECEIVERS=" ++ recipients] := by
  simp only [env_vars, joinColon, strAppend_assoc]
  conv_rhs => rw [← strAppend_assoc]
  rw [show ("^:^" : String) ++ "ANALYTICS_ID=" = "^:^ANALYTICS_ID=" from rfl]

/-- C9: whenever the notification-service path executes (alerting enabled
and a truthy resolved email server), the FID and CLS thresholds handed to
the service are `fidFinal p` and `clsFinal p`, functions of the prompt
responses only — any `-f`/`-c` flag value is overwritten — and they fall
back to `100` and `0.1` on an empty response. -/
theorem c9_fid_cls_prompt_overwrite (f : Flags) (p : Prompts)
    (ga region : String) (iamSA : Option String)
    (hea : f.emailAlert = true)
    (hserver : optTruthy (resolvedServer f p) = true) :
    emailStage f p ga region iamSA =
      [Event.apiDeployP75 ga,
       Event.apiDeployAlerter ga region (lcpFinal f p) (clsFinal p)
         (fidFinal p) (resolvedServer f p) (resolvedUser f p)
         (resolvedPassword f p) (resolvedFrom f p) (resolvedRecipients f p),
       Event.apiCreateTrigger iamSA] ∧
    fidFinal p = (if p.fidResp = "" then Val.intV 100
                  else Val.strV p.fidResp) ∧
    clsFinal p = (if p.clsResp = "" then Val.floatV01
                  else Val.strV p.clsResp) := by
  refine ⟨by simp [emailStage, hea, hserver], ?_, ?_⟩
  · by_cases h : p.fidResp = "" <;> simp [fidFinal, Val.truthy, h]
  · by_cases h : p.clsResp = "" <;> simp [clsFinal, Val.truthy, h]

/-- Witness for `c9_fid_cls_prompt_overwrite`: the `-f 42` / `-c 0.7` flag
values are overwritten by the (empty) prompt responses. -/
theorem c9_fid_cls_prompt_overwrite_witness :
    (flagsWithThresholds.emailAlert = true ∧
     optTruthy (resolvedServer flagsWithThresholds promptsQuiet) = true) ∧
    (emailStage flagsWithThresholds promptsQuiet "123" "us-east1"
        (some "sa@x.iam") =
      [Event.apiDeployP75 "123",
       Event.apiDeployAlerter "123" "us-east1"
         (lcpFinal flagsWithThresholds promptsQuiet) (clsFinal promptsQuiet)
         (fidFinal promptsQuiet)
         (resolvedServer flagsWithThresholds promptsQuiet)
         (resolvedUser flagsWithThresholds promptsQuiet)
         (resolvedPassword flagsWithThresholds promptsQuiet)
         (resolvedFrom flagsWithThresholds promptsQuiet)
         (resolvedRecipients flagsWithThresholds promptsQuiet),
       Event.apiCreateTrigger (some "sa@x.iam")] ∧
     fidFinal promptsQuiet =
       (if promptsQuiet.fidResp = "" then Val.intV 100
        else Val.strV promptsQuiet.fidResp) ∧
     clsFinal promptsQuiet =
       (if promptsQuiet.clsResp = "" then Val.floatV01
        else Val.strV promptsQuiet.clsResp)) :=
  ⟨⟨rfl, rfl⟩,
   c9_fid_cls_prompt_overwrite flagsWithThresholds promptsQuiet "123"
     "us-east1" (some "sa@x.iam") rfl rfl⟩

/-- C10: `get_default_service_account_email` returns the email of the first
listed service account whose lowercased display name contains the substring
`'default'`, and the empty string when no listed account's display name
contains it; the containment test is genuine substring occurrence. -/
theorem c10_default_account_lookup (accounts : List ServiceAccount) :
    get_default_service_account_email accounts =
      (((accounts.find? (fun a =>
          findSub (lowerChars a.displayName) "default".data)).map
        (fun a => a.email)).getD "") ∧
    (∀ hay : List Char, findSub hay "default".data = true ↔
      ∃ pre post, hay = pre ++ "default".data ++ post) := by
  constructor
  · induction accounts with
    | nil => simp [get_default_service_account_email]
    | cons a rest ih =>
      by_cases h : findSub (lowerChars a.displayName) "default".data = true
      · simp [get_default_service_account_email, h, List.find?_cons_of_pos]
      · simp only [Bool.not_eq_true] at h
        simp [get_default_service_account_email, h, List.find?_cons_of_neg, ih]
  · intro hay
    exact findSub_iff hay "default".data

end CwvDeploy
